import Mathlib

/-!
Shallow embedding of the comit-network/rendezvous-server repository.

The repository composes a libp2p rendezvous server: a secure transport
stack (Noise XX authentication, yamux/mplex multiplexing, handshake
timeout), secret-key file handling, tracing initialisation, and the
event loops of the two binaries (src/main.rs and
src/bin/rendezvous_server.rs).  The rendezvous protocol engine itself
(registration store, TTL clamping and eviction) lives in the libp2p
dependency, so those parts are modelled from the specification; every
definition says in its doc comment which source location it embeds.

Bytes are modelled as Nat, peer ids as Nat (opaque identifiers derived
from public keys), file paths as lists of components.
-/

/- ===================== Tracing (src/tracing.rs and init_tracing in src/main.rs) ===================== -/

/-- The tracing LevelFilter values (tracing crate), as used by init / init_tracing. -/
inductive LevelFilter
  | off
  | error
  | warn
  | info
  | debug
  | trace
deriving DecidableEq, Repr

/-- Display of a LevelFilter, used to build the env-filter directive string. -/
def levelFilterString : LevelFilter → String
  | LevelFilter.off => "OFF"
  | LevelFilter.error => "ERROR"
  | LevelFilter.warn => "WARN"
  | LevelFilter.info => "INFO"
  | LevelFilter.debug => "DEBUG"
  | LevelFilter.trace => "TRACE"

/-- The observable configuration of an installed FmtSubscriber: the env filter
directive, ANSI colouring, the timer format if any (none after without_time),
whether targets are printed, and whether the JSON formatter is installed. -/
structure SubscriberConfig where
  envFilter : String
  ansi : Bool
  timer : Option String
  target : Bool
  json : Bool
deriving DecidableEq, Repr

/-- src/tracing.rs lines 7-31, fn init.  Returns the installed subscriber
configuration, or none when level is OFF (the early return installs nothing).
The atty check on stderr is passed in as is_terminal. -/
def init (level : LevelFilter) (json_format : Bool) (timestamp : Bool)
    (is_terminal : Bool) : Option SubscriberConfig :=
  if level = LevelFilter.off then
    none
  else
    let builder : SubscriberConfig :=
      { envFilter := "rendezvous_server=" ++ levelFilterString level
      , ansi := is_terminal
      , timer := some "%F %T"
      , target := false
      , json := false }
    if json_format then
      some { builder with json := true }
    else if timestamp = false then
      some { builder with timer := none }
    else
      some builder

/-- src/main.rs lines 140-164, fn init_tracing.  Identical builder chain to
src/tracing.rs init, but the third flag is no_timestamp (inverted sense). -/
def init_tracing (level : LevelFilter) (json_format : Bool) (no_timestamp : Bool)
    (is_terminal : Bool) : Option SubscriberConfig :=
  if level = LevelFilter.off then
    none
  else
    let builder : SubscriberConfig :=
      { envFilter := "rendezvous_server=" ++ levelFilterString level
      , ansi := is_terminal
      , timer := some "%F %T"
      , target := false
      , json := false }
    if json_format then
      some { builder with json := true }
    else if no_timestamp then
      some { builder with timer := none }
    else
      some builder

/- ===================== Secret-key files (src/lib.rs and src/main.rs) ===================== -/

/-- A filesystem path, as a list of components (PathBuf). -/
abbrev FsPath := List String

/-- PathBuf::parent: none for the empty path, otherwise the path with the
last component dropped (for a bare filename this is the empty path, on which
directory creation is a no-op, as in Rust). -/
def FsPath.parent (p : FsPath) : Option FsPath :=
  if p = [] then none else some p.dropLast

/-- The filesystem state visible to the secret-key functions: file contents
keyed by path, plus the set of directories that exist. -/
structure FileSystem where
  files : List (FsPath × List Nat)
  dirs : List FsPath
deriving DecidableEq, Repr

/-- Look a path up in a file table (first matching entry). -/
def lookupFile : List (FsPath × List Nat) → FsPath → Option (List Nat)
  | [], _ => none
  | (q, v) :: rest, p => if q = p then some v else lookupFile rest p

/-- Replace the contents of the first entry for a path in a file table. -/
def updateFile : List (FsPath × List Nat) → FsPath → List Nat → List (FsPath × List Nat)
  | [], _, _ => []
  | (q, v) :: rest, p, b => if q = p then (q, b) :: rest else (q, v) :: updateFile rest p b

/-- All non-empty ancestor prefixes of a directory path, as created by
DirBuilder::new().recursive(true).create(parent). -/
def ancestorDirs : FsPath → List FsPath
  | [] => []
  | c :: rest => [c] :: (ancestorDirs rest).map (List.cons c)

/-- DirBuilder::new().recursive(true).create: creates the directory and all
its ancestors; never touches file contents. -/
def createDirAll (fs : FileSystem) (d : FsPath) : FileSystem :=
  { fs with dirs := ancestorDirs d ++ fs.dirs }

/-- OpenOptions::new().write(true).create_new(true).open(path): fails (none)
when a file already exists at the path, otherwise creates an empty file. -/
def openCreateNew (fs : FileSystem) (p : FsPath) : Option FileSystem :=
  match lookupFile fs.files p with
  | some _ => none
  | none => some { fs with files := (p, []) :: fs.files }

/-- file.write_all(bytes): replace the contents of the open file. -/
def writeAll (fs : FileSystem) (p : FsPath) (bytes : List Nat) : FileSystem :=
  { fs with files := updateFile fs.files p bytes }

/-- ed25519 secret keys are exactly 32 bytes (ed25519_dalek SECRET_KEY_LENGTH). -/
def ed25519SecretKeyLength : Nat := 32

/-- The error contexts produced by the secret-key functions. -/
inductive KeyFileError
  | noSecretFile (path : FsPath)
  | invalidKeyLength (n : Nat)
  | couldNotGenerate (path : FsPath)
deriving DecidableEq, Repr

/-- ed25519::SecretKey::from_bytes: succeeds exactly on 32-byte input. -/
def secretKeyFromBytes (bytes : List Nat) : Except KeyFileError (List Nat) :=
  if bytes.length = ed25519SecretKeyLength then Except.ok bytes
  else Except.error (KeyFileError.invalidKeyLength bytes.length)

/-- src/lib.rs lines 56-62 and src/main.rs lines 166-174,
fn load_secret_key_from_file: read the file (error with a No-secret-file
context when absent), then decode the bytes as an ed25519 secret key.  The
resulting filesystem is returned to make the absence of modification explicit. -/
def load_secret_key_from_file (fs : FileSystem) (path : FsPath) :
    Except KeyFileError (List Nat) × FileSystem :=
  match lookupFile fs.files path with
  | none => (Except.error (KeyFileError.noSecretFile path), fs)
  | some bytes => (secretKeyFromBytes bytes, fs)

/-- The parent-directory creation step shared by write_secret_key_to_file and
generate_secret_key_file: if the path has a parent, create it recursively. -/
def createParentDirs (path : FsPath) (fs : FileSystem) : FileSystem :=
  match FsPath.parent path with
  | some parent => createDirAll fs parent
  | none => fs

/-- src/main.rs lines 176-199, fn write_secret_key_to_file: create the parent
directory chain, open the file with create_new (failing if it exists), then
write exactly the secret-key bytes. -/
def write_secret_key_to_file (secret_key : List Nat) (path : FsPath)
    (fs : FileSystem) : Except KeyFileError Unit × FileSystem :=
  let fs1 := createParentDirs path fs
  match openCreateNew fs1 path with
  | none => (Except.error (KeyFileError.couldNotGenerate path), fs1)
  | some fs2 => (Except.ok (), writeAll fs2 path secret_key)

/-- src/lib.rs lines 64-88, fn generate_secret_key_file: create the parent
directory chain, open the file with create_new (failing if it exists),
generate a fresh keypair (the fresh entropy is the freshKey argument), write
its secret bytes and return the secret key. -/
def generate_secret_key_file (freshKey : List Nat) (path : FsPath)
    (fs : FileSystem) : Except KeyFileError (List Nat) × FileSystem :=
  let fs1 := createParentDirs path fs
  match openCreateNew fs1 path with
  | none => (Except.error (KeyFileError.couldNotGenerate path), fs1)
  | some fs2 => (Except.ok freshKey, writeAll fs2 path freshKey)

/- ===================== Rendezvous events and the two event loops ===================== -/

/-- A peer record inside a registration: the registering peer's id and its
advertised multiaddresses (libp2p rendezvous PeerRecord). -/
structure PeerRecord where
  peer_id : Nat
  addresses : List String
deriving DecidableEq, Repr

/-- A registration as carried by the rendezvous events: namespace, signed
peer record and ttl (libp2p rendezvous Registration). -/
structure Registration where
  nspace : String
  record : PeerRecord
  ttl : Nat
deriving DecidableEq, Repr

/-- The five server-side lifecycle events of the libp2p rendezvous behaviour
that the spec lists for the observability collaborator. -/
inductive RendezvousEvent
  | PeerRegistered (peer : Nat) (registration : Registration)
  | PeerNotRegistered (peer : Nat) (nspace : String) (error : String)
  | RegistrationExpired (registration : Registration)
  | PeerUnregistered (peer : Nat) (nspace : String)
  | DiscoverServed (enquirer : Nat) (registrations : List Registration)
deriving DecidableEq, Repr

/-- Whether an event is the DiscoverServed variant. -/
def RendezvousEvent.isDiscoverServed : RendezvousEvent → Bool
  | RendezvousEvent.DiscoverServed _ _ => true
  | _ => false

/-- The out-event of the composed behaviour (enum Event in src/main.rs lines
263-267 and src/lib.rs lines 15-19): rendezvous or ping. -/
inductive BehaviourEvent
  | Rendezvous (e : RendezvousEvent)
  | Ping (peer : Nat)
deriving DecidableEq, Repr

/-- The swarm events a libp2p swarm can hand to the event loop: behaviour
output plus the connection- and listener-level events, including the
connection-scoped error events raised by handshake or framing failures. -/
inductive SwarmEvent
  | Behaviour (e : BehaviourEvent)
  | ConnectionEstablished (peer : Nat)
  | ConnectionClosed (peer : Nat) (cause : Option String)
  | IncomingConnection (local_addr : String)
  | IncomingConnectionError (local_addr : String) (error : String)
  | BannedPeer (peer : Nat)
  | NewListenAddr (address : String)
  | ExpiredListenAddr (address : String)
  | ListenerClosed (reason : Option String)
  | ListenerError (error : String)
  | Dialing (peer : Nat)
deriving DecidableEq, Repr

/-- One structured log record: message plus field list, as produced by the
tracing macros in the event loops. -/
structure LogRecord where
  message : String
  fields : List (String × String)
deriving DecidableEq, Repr

/-- Display of a multiaddress slice as a comma-separated string: the
fmt::Display impl of struct Addresses (src/main.rs lines 310-323,
src/tracing.rs lines 33-46). -/
def addressesDisplay (l : List String) : String :=
  String.intercalate "," l

/-- Debug formatting of an address vector, as used by the addresses=? field. -/
def addressesDebug (l : List String) : String :=
  toString l

/-- The outcome of one iteration of an event loop body: either the loop
continues (with the log record it emitted, if any) or it exits. -/
inductive StepResult
  | continueLoop (log : Option LogRecord)
  | exitLoop (err : String)
deriving DecidableEq, Repr

/-- The log record of a step, if any. -/
def stepLog : StepResult → Option LogRecord
  | StepResult.continueLoop l => l
  | StepResult.exitLoop _ => none

/-- src/main.rs lines 100-137: the body of the event loop of the main binary.
Every match arm ends in the loop continuing; the five rendezvous lifecycle
events and NewListenAddr produce log records, everything else falls into
the catch-all arm. -/
def mainLoopStep (ev : SwarmEvent) : StepResult :=
  match ev with
  | SwarmEvent.Behaviour (BehaviourEvent.Rendezvous (RendezvousEvent.PeerRegistered peer registration)) =>
      StepResult.continueLoop (some
        { message := "Peer registered"
        , fields := [("peer", toString peer)
                    , ("namespace", registration.nspace)
                    , ("addresses", addressesDebug registration.record.addresses)
                    , ("ttl", toString registration.ttl)] })
  | SwarmEvent.Behaviour (BehaviourEvent.Rendezvous (RendezvousEvent.PeerNotRegistered peer nspace error)) =>
      StepResult.continueLoop (some
        { message := "Peer failed to register"
        , fields := [("peer", toString peer), ("namespace", nspace), ("error", error)] })
  | SwarmEvent.Behaviour (BehaviourEvent.Rendezvous (RendezvousEvent.RegistrationExpired registration)) =>
      StepResult.continueLoop (some
        { message := "Registration expired"
        , fields := [("peer", toString registration.record.peer_id)
                    , ("namespace", registration.nspace)
                    , ("addresses", addressesDisplay registration.record.addresses)
                    , ("ttl", toString registration.ttl)] })
  | SwarmEvent.Behaviour (BehaviourEvent.Rendezvous (RendezvousEvent.PeerUnregistered peer nspace)) =>
      StepResult.continueLoop (some
        { message := "Peer unregistered"
        , fields := [("peer", toString peer), ("namespace", nspace)] })
  | SwarmEvent.Behaviour (BehaviourEvent.Rendezvous (RendezvousEvent.DiscoverServed enquirer _registrations)) =>
      StepResult.continueLoop (some
        { message := "Discovery served"
        , fields := [("peer", toString enquirer)] })
  | SwarmEvent.NewListenAddr address =>
      StepResult.continueLoop (some
        { message := "New listening address reported"
        , fields := [("address", address)] })
  | _ => StepResult.continueLoop none

/-- src/bin/rendezvous_server.rs lines 69-101: the body of the event loop of
the rendezvous_server binary.  It logs PeerRegistered, PeerNotRegistered,
RegistrationExpired and PeerUnregistered; every other event, including
DiscoverServed, falls into the catch-all arm. -/
def binLoopStep (ev : SwarmEvent) : StepResult :=
  match ev with
  | SwarmEvent.Behaviour (BehaviourEvent.Rendezvous (RendezvousEvent.PeerRegistered peer registration)) =>
      StepResult.continueLoop (some
        { message := "Peer registered"
        , fields := [("peer", toString peer)
                    , ("namespace", registration.nspace)
                    , ("addresses", addressesDebug registration.record.addresses)
                    , ("ttl", toString registration.ttl)] })
  | SwarmEvent.Behaviour (BehaviourEvent.Rendezvous (RendezvousEvent.PeerNotRegistered peer nspace error)) =>
      StepResult.continueLoop (some
        { message := "Peer failed to register"
        , fields := [("peer", toString peer), ("namespace", nspace), ("error", error)] })
  | SwarmEvent.Behaviour (BehaviourEvent.Rendezvous (RendezvousEvent.RegistrationExpired registration)) =>
      StepResult.continueLoop (some
        { message := "Registration expired"
        , fields := [("peer", toString registration.record.peer_id)
                    , ("namespace", registration.nspace)
                    , ("addresses", addressesDisplay registration.record.addresses)
                    , ("ttl", toString registration.ttl)] })
  | SwarmEvent.Behaviour (BehaviourEvent.Rendezvous (RendezvousEvent.PeerUnregistered peer nspace)) =>
      StepResult.continueLoop (some
        { message := "Peer unregistered"
        , fields := [("peer", toString peer), ("namespace", nspace)] })
  | _ => StepResult.continueLoop none

/-- Running the main-binary event loop over a finite prefix of the event
stream: the log records emitted, in order.  Total because every step
continues. -/
def mainLoopRun (evs : List SwarmEvent) : List LogRecord :=
  evs.filterMap (fun ev => stepLog (mainLoopStep ev))

/- ===================== Transport stack (authenticate_and_multiplex, src/main.rs 239-261) ===================== -/

/-- Noise handshake patterns relevant to the noise upgrade. -/
inductive HandshakePattern
  | XX
  | IK
  | IX
deriving DecidableEq, Repr

/-- The authentication upgrade built in src/main.rs lines 246-249: a fresh
X25519 Diffie-Hellman keypair signed by the local identity keypair
(into_authentic), the XX pattern, and the into_authenticated wrapper so that
the upgrade output carries the remote's verified PeerId. -/
structure NoiseAuthConfig where
  pattern : HandshakePattern
  dhKeysSignedBy : Nat
  intoAuthenticated : Bool
deriving DecidableEq, Repr

/-- The two stream multiplexers offered by the server. -/
inductive Multiplexer
  | yamux
  | mplex
deriving DecidableEq, Repr

/-- SelectUpgrade::new(YamuxConfig::default(), MplexConfig::new()): the
ordered pair of multiplexer upgrades offered during negotiation. -/
structure SelectUpgradeConfig where
  first : Multiplexer
  second : Multiplexer
deriving DecidableEq, Repr

/-- The transport upgrade pipeline assembled by authenticate_and_multiplex:
multistream version, authentication upgrade, multiplexer selection and the
overall handshake timeout in seconds. -/
structure TransportStack where
  version : Nat
  auth : NoiseAuthConfig
  multiplex : SelectUpgradeConfig
  timeoutSecs : Nat
deriving DecidableEq, Repr

/-- src/main.rs lines 239-261, fn authenticate_and_multiplex: upgrade the
transport with Version::V1, authenticate with Noise XX over DH keys signed by
the local identity, multiplex with SelectUpgrade(yamux, mplex), and bound
the whole upgrade with a 20-second timeout.  The identity keypair is
represented by the Nat id of its public key. -/
def authenticate_and_multiplex (identityPublicKey : Nat) : TransportStack :=
  { version := 1
  , auth := { pattern := HandshakePattern.XX
            , dhKeysSignedBy := identityPublicKey
            , intoAuthenticated := true }
  , multiplex := { first := Multiplexer.yamux, second := Multiplexer.mplex }
  , timeoutSecs := 20 }

/-- A remote endpoint attempting a connection: the identity whose key it can
actually prove possession of in the Diffie-Hellman handshake, the identity
its message payloads claim (untrusted), and which multiplexers it supports. -/
structure RemotePeer where
  actualIdentity : Nat
  payloadClaimedIdentity : Nat
  supportsYamux : Bool
  supportsMplex : Bool
deriving DecidableEq, Repr

/-- The errors of securing a connection, per the spec's error taxonomy. -/
inductive HandshakeError
  | Timeout
  | AuthenticationFailed
  | NegotiationFailed
deriving DecidableEq, Repr

/-- Whether the remote supports a given multiplexer. -/
def Multiplexer.supportedBy (m : Multiplexer) (remote : RemotePeer) : Bool :=
  match m with
  | Multiplexer.yamux => remote.supportsYamux
  | Multiplexer.mplex => remote.supportsMplex

/-- Modelled from the spec: SelectUpgrade protocol negotiation (the
negotiation machinery lives in libp2p, not under src/).  Exactly one scheme
is chosen: the first of the offered pair the remote supports, else the
second, else the negotiation fails. -/
def negotiateMultiplexer (cfg : SelectUpgradeConfig) (remote : RemotePeer) :
    Option Multiplexer :=
  if cfg.first.supportedBy remote then some cfg.first
  else if cfg.second.supportedBy remote then some cfg.second
  else none

/-- A secured, multiplexed connection: the output (PeerId, StreamMuxerBox)
of the upgraded transport.  The peer id is the one verified by the
handshake; the single muxer chosen at handshake time serves every
substream for the connection's lifetime. -/
structure SecureConnection where
  peer : Nat
  muxer : Multiplexer
deriving DecidableEq, Repr

/-- Opening the i-th logical substream on a connection uses the connection's
muxer: the StreamMuxerBox fixed at upgrade time, never re-negotiated. -/
def SecureConnection.openSubstream (conn : SecureConnection) (_streamIndex : Nat) :
    Multiplexer :=
  conn.muxer

/-- Modelled from the spec: applying the upgrade pipeline of a TransportStack
to an inbound connection (the noise and timeout upgrade internals live in
libp2p, not under src/).  If the elapsed handshake time exceeds the bound the
attempt fails with Timeout; the mutual XX handshake in authenticated mode
verifies the remote's static key, so a successful upgrade outputs the
remote's actual (DH-proved) identity, never any payload-claimed identity,
paired with the single negotiated muxer. -/
def applyTransportUpgrade (stack : TransportStack) (remote : RemotePeer)
    (elapsedSecs : Nat) : Except HandshakeError SecureConnection :=
  if stack.timeoutSecs < elapsedSecs then
    Except.error HandshakeError.Timeout
  else if stack.auth.pattern = HandshakePattern.XX && stack.auth.intoAuthenticated then
    match negotiateMultiplexer stack.multiplex remote with
    | none => Except.error HandshakeError.NegotiationFailed
    | some m => Except.ok { peer := remote.actualIdentity, muxer := m }
  else
    Except.error HandshakeError.AuthenticationFailed

/- ===================== Registration store (modelled from the spec) ===================== -/

/-- Modelled from the spec: the configuration of the rendezvous behaviour
(libp2p rendezvous Config, constructed as Config::default() in
src/main.rs line 209): ttl bounds, default ttl, namespace length bound and
the per-peer registration cap. -/
structure RendezvousConfig where
  minTtl : Nat
  maxTtl : Nat
  defaultTtl : Nat
  nsMaxLength : Nat
  registrationCap : Nat
deriving DecidableEq, Repr

/-- A registration record as owned by the store, per the spec's data model. -/
structure StoreRegistration where
  peer_id : Nat
  nspace : String
  addresses : List String
  ttl : Nat
  registered_at : Nat
  ordinal : Nat
deriving DecidableEq, Repr

/-- The registration store: the active registrations and the next ordinal. -/
structure RegistrationStore where
  regs : List StoreRegistration
  nextOrdinal : Nat
deriving DecidableEq, Repr

/-- The empty store. -/
def emptyStore : RegistrationStore := { regs := [], nextOrdinal := 0 }

/-- Modelled from the spec: clamp the requested ttl into the configured
interval, applying the default when absent. -/
def clampTtl (cfg : RendezvousConfig) : Option Nat → Nat
  | none => cfg.defaultTtl
  | some t => max cfg.minTtl (min t cfg.maxTtl)

/-- Modelled from the spec: a namespace is a bounded-length non-empty string. -/
def validNamespace (cfg : RendezvousConfig) (ns : String) : Bool :=
  decide (0 < ns.length) && decide (ns.length ≤ cfg.nsMaxLength)

/-- Whether a stored registration is keyed by the given (peer, namespace). -/
def sameKey (peer : Nat) (ns : String) (r : StoreRegistration) : Bool :=
  r.peer_id == peer && r.nspace == ns

/-- The rejection reasons of register, per the spec's error taxonomy. -/
inductive RegisterError
  | invalidNamespace
  | invalidAddresses
  | tooManyRegistrations
deriving DecidableEq, Repr

/-- The register response of the external interface: Registered with the
granted ttl, or RegisterFailed with a reason. -/
inductive RegisterOutcome
  | Registered (ttl : Nat)
  | RegisterFailed (reason : RegisterError)
deriving DecidableEq, Repr

/-- Whether a register outcome is a success. -/
def RegisterOutcome.isRegistered : RegisterOutcome → Bool
  | RegisterOutcome.Registered _ => true
  | RegisterOutcome.RegisterFailed _ => false

/-- Modelled from the spec: the register operation of the Registration Store
(the store lives in the libp2p rendezvous behaviour, not under src/).
Validates namespace and addresses, enforces the per-peer cap, clamps the
requested ttl into the configured interval, and atomically overwrites any
existing entry for the (peer, namespace) key with a fresh ordinal.  On any
failure the store is unchanged.  The per-peer cap counts the peer's
registrations under other namespaces, so a renewal is never rejected by
the cap. -/
def register (cfg : RendezvousConfig) (now peer : Nat) (ns : String)
    (addrs : List String) (requestedTtl : Option Nat) (st : RegistrationStore) :
    RegisterOutcome × RegistrationStore :=
  if validNamespace cfg ns = false then
    (RegisterOutcome.RegisterFailed RegisterError.invalidNamespace, st)
  else if addrs.isEmpty then
    (RegisterOutcome.RegisterFailed RegisterError.invalidAddresses, st)
  else if cfg.registrationCap ≤
      (st.regs.filter (fun r => r.peer_id == peer && !(sameKey peer ns r))).length then
    (RegisterOutcome.RegisterFailed RegisterError.tooManyRegistrations, st)
  else
    let ttl := clampTtl cfg requestedTtl
    let reg : StoreRegistration :=
      { peer_id := peer, nspace := ns, addresses := addrs
      , ttl := ttl, registered_at := now, ordinal := st.nextOrdinal }
    (RegisterOutcome.Registered ttl,
      { regs := reg :: st.regs.filter (fun r => !(sameKey peer ns r))
      , nextOrdinal := st.nextOrdinal + 1 })

/-- Modelled from the spec: unregister removes the entry for the key if
present and is an idempotent no-op otherwise. -/
def unregister (peer : Nat) (ns : String) (st : RegistrationStore) :
    RegistrationStore :=
  { st with regs := st.regs.filter (fun r => !(sameKey peer ns r)) }

/-- Modelled from the spec: the eviction performed by the expiry scheduler at
time now removes every registration whose ttl has elapsed. -/
def evictExpired (now : Nat) (st : RegistrationStore) : RegistrationStore :=
  { st with regs := st.regs.filter (fun r => decide (now < r.registered_at + r.ttl)) }

/-- A store mutation: the three operations whose interleavings the at-most-one
invariant quantifies over.  The spec serializes all mutations through one
owner, so an interleaving is a finite sequence of these. -/
inductive StoreOp
  | opRegister (now peer : Nat) (ns : String) (addrs : List String) (requestedTtl : Option Nat)
  | opUnregister (peer : Nat) (ns : String)
  | opEvict (now : Nat)
deriving DecidableEq, Repr

/-- Apply one store mutation. -/
def applyOp (cfg : RendezvousConfig) (st : RegistrationStore) : StoreOp → RegistrationStore
  | StoreOp.opRegister now peer ns addrs requestedTtl =>
      (register cfg now peer ns addrs requestedTtl st).2
  | StoreOp.opUnregister peer ns => unregister peer ns st
  | StoreOp.opEvict now => evictExpired now st

/-- Run a sequence of store mutations from the empty store. -/
def runOps (cfg : RendezvousConfig) (ops : List StoreOp) : RegistrationStore :=
  ops.foldl (applyOp cfg) emptyStore

/-- Two stored registrations have distinct (peer_id, namespace) keys. -/
def distinctKeys (a b : StoreRegistration) : Prop :=
  ¬(a.peer_id = b.peer_id ∧ a.nspace = b.nspace)

/-- At most one active registration per (peer_id, namespace) key. -/
def atMostOnePerKey (st : RegistrationStore) : Prop :=
  st.regs.Pairwise distinctKeys

/- ===================== Theorems ===================== -/

/-- Both tracing entry points install nothing when the level is OFF. -/
lemma init_off (j t term : Bool) :
    init LevelFilter.off j t term = none ∧
    init_tracing LevelFilter.off j t term = none := ⟨rfl, rfl⟩

/-- C10: in tracing initialisation the json flag takes precedence over the
timestamp flag: with json_format = true both init (src/tracing.rs) and
init_tracing (src/main.rs) install the same JSON subscriber whatever the
timestamp flag says, that subscriber keeps its timer (JSON logs always carry
timestamps), and with level = OFF no subscriber is installed at all. -/
theorem c10_json_precedence_over_timestamp :
    (∀ (level : LevelFilter) (t1 t2 term : Bool),
        init level true t1 term = init level true t2 term ∧
        init_tracing level true t1 term = init_tracing level true t2 term) ∧
    (∀ (level : LevelFilter) (t term : Bool),
        (init level true t term).all (fun c => c.timer.isSome) = true ∧
        (init_tracing level true t term).all (fun c => c.timer.isSome) = true) ∧
    (∀ (j t term : Bool),
        init LevelFilter.off j t term = none ∧
        init_tracing LevelFilter.off j t term = none) := by
  refine ⟨?_, ?_, ?_⟩
  · intro level t1 t2 term
    cases level <;> exact ⟨rfl, rfl⟩
  · intro level t term
    cases level <;> exact ⟨rfl, rfl⟩
  · intro j t term
    exact ⟨rfl, rfl⟩

/-- C9: load_secret_key_from_file succeeds exactly when the file exists and
its entire content is a 32-byte ed25519 secret key; when the file is absent
it fails with the No-secret-file context; and it never modifies the
filesystem. -/
theorem c9_load_secret_key_ok_iff :
    ∀ (fs : FileSystem) (path : FsPath),
      ((load_secret_key_from_file fs path).1.isOk = true ↔
        ∃ b, lookupFile fs.files path = some b ∧ b.length = ed25519SecretKeyLength) ∧
      (lookupFile fs.files path = none →
        (load_secret_key_from_file fs path).1 =
          Except.error (KeyFileError.noSecretFile path)) ∧
      (load_secret_key_from_file fs path).2 = fs := by
  intro fs path
  refine ⟨?_, ?_, ?_⟩
  · unfold load_secret_key_from_file
    cases h : lookupFile fs.files path with
    | none => simp [Except.isOk, Except.toBool]
    | some b =>
      simp only [secretKeyFromBytes]
      split
      · simp_all [Except.isOk, Except.toBool]
      · simp_all [Except.isOk, Except.toBool]
  · intro h
    simp [load_secret_key_from_file, h]
  · unfold load_secret_key_from_file
    cases h : lookupFile fs.files path <;> rfl

/-- Witness for C9 at concrete filesystems: a missing file yields the
No-secret-file error without touching the filesystem, and a 32-byte file
loads successfully. -/
theorem c9_load_secret_key_ok_iff_witness :
    (load_secret_key_from_file { files := [], dirs := [] } ["secret.key"]).1 =
      Except.error (KeyFileError.noSecretFile ["secret.key"]) ∧
    (load_secret_key_from_file { files := [], dirs := [] } ["secret.key"]).2 =
      { files := [], dirs := [] } ∧
    (load_secret_key_from_file
        { files := [(["secret.key"], List.replicate 32 0)], dirs := [] }
        ["secret.key"]).1.isOk = true := by
  have h1 := c9_load_secret_key_ok_iff { files := [], dirs := [] } ["secret.key"]
  have h2 := c9_load_secret_key_ok_iff
      { files := [(["secret.key"], List.replicate 32 0)], dirs := [] } ["secret.key"]
  exact ⟨h1.2.1 rfl, h1.2.2, h2.1.mpr ⟨List.replicate 32 0, rfl, rfl⟩⟩

/-- Creating parent directories never changes file contents. -/
lemma createParentDirs_files (path : FsPath) (fs : FileSystem) :
    (createParentDirs path fs).files = fs.files := by
  unfold createParentDirs
  split <;> rfl

/-- C8: generating a secret key file never overwrites existing data: when a
file already exists at the path, generate_secret_key_file and
write_secret_key_to_file fail with the could-not-generate context and the
existing contents survive unchanged; when no file exists, they succeed and
the bytes stored at the path are exactly the bytes of the returned
(respectively given) secret key. -/
theorem c8_generate_secret_key_never_overwrites :
    ∀ (key data : List Nat) (path : FsPath) (fs : FileSystem),
      (lookupFile fs.files path = some data →
        (generate_secret_key_file key path fs).1 =
          Except.error (KeyFileError.couldNotGenerate path) ∧
        lookupFile (generate_secret_key_file key path fs).2.files path = some data ∧
        (write_secret_key_to_file key path fs).1 =
          Except.error (KeyFileError.couldNotGenerate path) ∧
        lookupFile (write_secret_key_to_file key path fs).2.files path = some data) ∧
      (lookupFile fs.files path = none →
        (generate_secret_key_file key path fs).1 = Except.ok key ∧
        lookupFile (generate_secret_key_file key path fs).2.files path = some key ∧
        (write_secret_key_to_file key path fs).1 = Except.ok () ∧
        lookupFile (write_secret_key_to_file key path fs).2.files path = some key) := by
  intro key data path fs
  constructor
  · intro h
    refine ⟨?_, ?_, ?_, ?_⟩ <;>
      simp [generate_secret_key_file, write_secret_key_to_file, openCreateNew,
        createParentDirs_files, h]
  · intro h
    refine ⟨?_, ?_, ?_, ?_⟩ <;>
      simp [generate_secret_key_file, write_secret_key_to_file, openCreateNew,
        writeAll, updateFile, lookupFile, createParentDirs_files, h]

/-- Witness for C8 at a concrete path: generation on a fresh filesystem
stores exactly the returned key bytes, and generation over an existing file
fails and leaves the old bytes in place. -/
theorem c8_generate_secret_key_never_overwrites_witness :
    (generate_secret_key_file (List.replicate 32 7) ["dir", "secret.key"]
        { files := [], dirs := [] }).1 = Except.ok (List.replicate 32 7) ∧
    lookupFile (generate_secret_key_file (List.replicate 32 7) ["dir", "secret.key"]
        { files := [], dirs := [] }).2.files ["dir", "secret.key"] =
      some (List.replicate 32 7) ∧
    (generate_secret_key_file (List.replicate 32 7) ["dir", "secret.key"]
        { files := [(["dir", "secret.key"], [1, 2, 3])], dirs := [] }).1 =
      Except.error (KeyFileError.couldNotGenerate ["dir", "secret.key"]) ∧
    lookupFile (generate_secret_key_file (List.replicate 32 7) ["dir", "secret.key"]
        { files := [(["dir", "secret.key"], [1, 2, 3])], dirs := [] }).2.files
        ["dir", "secret.key"] = some [1, 2, 3] := by
  have h1 := (c8_generate_secret_key_never_overwrites (List.replicate 32 7) [1, 2, 3]
      ["dir", "secret.key"] { files := [], dirs := [] }).2 rfl
  have h2 := (c8_generate_secret_key_never_overwrites (List.replicate 32 7) [1, 2, 3]
      ["dir", "secret.key"] { files := [(["dir", "secret.key"], [1, 2, 3])], dirs := [] }).1 rfl
  exact ⟨h1.1, h1.2.1, h2.1, h2.2.1⟩

/-- C2 counterexample: in the event loop of the rendezvous_server binary
(src/bin/rendezvous_server.rs lines 69-101) the DiscoverServed lifecycle
event falls into the catch-all arm and produces no log record, so it is not
the case that every lifecycle event received by every server event loop
yields a structured log record. -/
theorem c2_counterexample_bin_discover_served_unlogged :
    stepLog (binLoopStep (SwarmEvent.Behaviour (BehaviourEvent.Rendezvous
      (RendezvousEvent.DiscoverServed 7 [])))) = none := rfl

/-- C2 amended: the event loop of the main binary (src/main.rs) produces a
log record for every one of the five lifecycle events, and the event loop of
the rendezvous_server binary produces one for PeerRegistered,
PeerNotRegistered, RegistrationExpired and PeerUnregistered but not for
DiscoverServed. -/
theorem c2_amended_lifecycle_events_logged :
    ∀ re : RendezvousEvent,
      (stepLog (mainLoopStep (SwarmEvent.Behaviour
        (BehaviourEvent.Rendezvous re)))).isSome = true ∧
      (stepLog (binLoopStep (SwarmEvent.Behaviour
        (BehaviourEvent.Rendezvous re)))).isSome = !re.isDiscoverServed := by
  intro re
  cases re <;> exact ⟨rfl, rfl⟩

/-- C7: a handshake or framing failure on one connection never terminates
the server: every possible swarm event, connection errors included, makes
both event loops continue rather than exit, and the main loop's log stream
over any event sequence starting with an incoming-connection error equals
the stream over the remaining events, so other connections are served
unaffected. -/
theorem c7_event_loop_never_exits :
    (∀ ev : SwarmEvent, ∃ l, mainLoopStep ev = StepResult.continueLoop l) ∧
    (∀ ev : SwarmEvent, ∃ l, binLoopStep ev = StepResult.continueLoop l) ∧
    (∀ (la err : String) (rest : List SwarmEvent),
      mainLoopRun (SwarmEvent.IncomingConnectionError la err :: rest) =
        mainLoopRun rest) := by
  refine ⟨?_, ?_, ?_⟩
  · intro ev
    cases ev
    case Behaviour e =>
      cases e
      case Rendezvous re => cases re <;> exact ⟨_, rfl⟩
      case Ping => exact ⟨_, rfl⟩
    all_goals exact ⟨_, rfl⟩
  · intro ev
    cases ev
    case Behaviour e =>
      cases e
      case Rendezvous re => cases re <;> exact ⟨_, rfl⟩
      case Ping => exact ⟨_, rfl⟩
    all_goals exact ⟨_, rfl⟩
  · intro la err rest
    rfl

/-- A successful transport upgrade outputs the remote's DH-proved identity
and the muxer chosen by the handshake-time negotiation. -/
lemma applyTransportUpgrade_ok (stack : TransportStack) (remote : RemotePeer)
    (elapsed : Nat) (conn : SecureConnection) :
    applyTransportUpgrade stack remote elapsed = Except.ok conn →
    conn.peer = remote.actualIdentity ∧
    negotiateMultiplexer stack.multiplex remote = some conn.muxer := by
  intro h
  unfold applyTransportUpgrade at h
  split at h
  · exact Except.noConfusion h
  · split at h
    · cases hneg : negotiateMultiplexer stack.multiplex remote with
      | none => rw [hneg] at h; exact Except.noConfusion h
      | some m =>
        rw [hneg] at h
        cases h
        exact ⟨rfl, rfl⟩
    · exact Except.noConfusion h

/-- The transport upgrade result is independent of the identity the remote's
payload claims: only the DH-proved identity and the supported multiplexers
enter the computation. -/
lemma applyTransportUpgrade_ignores_payload_claim (stack : TransportStack)
    (remote : RemotePeer) (elapsed claimed : Nat) :
    applyTransportUpgrade stack { remote with payloadClaimedIdentity := claimed } elapsed =
      applyTransportUpgrade stack remote elapsed := by
  cases remote
  rfl

/-- C1: authenticate_and_multiplex secures every connection with a mutual
Noise XX handshake whose Diffie-Hellman keys are signed by the local
identity keypair, in authenticated-output mode, and the upgraded transport
pairs the stream with the remote's handshake-verified PeerId: a successful
upgrade outputs the remote's actual DH-proved identity, and the whole
upgrade is independent of any identity claimed in a message payload. -/
theorem c1_noise_xx_identity_from_handshake :
    ∀ (localId : Nat) (remote : RemotePeer) (elapsed : Nat),
      ((authenticate_and_multiplex localId).auth.pattern = HandshakePattern.XX ∧
       (authenticate_and_multiplex localId).auth.dhKeysSignedBy = localId ∧
       (authenticate_and_multiplex localId).auth.intoAuthenticated = true) ∧
      (∀ conn : SecureConnection,
        applyTransportUpgrade (authenticate_and_multiplex localId) remote elapsed =
          Except.ok conn → conn.peer = remote.actualIdentity) ∧
      (∀ claimed : Nat,
        applyTransportUpgrade (authenticate_and_multiplex localId)
            { remote with payloadClaimedIdentity := claimed } elapsed =
          applyTransportUpgrade (authenticate_and_multiplex localId) remote elapsed) := by
  intro localId remote elapsed
  refine ⟨⟨rfl, rfl, rfl⟩, ?_, ?_⟩
  · intro conn h
    exact (applyTransportUpgrade_ok _ _ _ _ h).1
  · intro claimed
    exact applyTransportUpgrade_ignores_payload_claim _ _ _ _

/-- Witness for C1 at concrete inputs: a remote proving identity 9 while
claiming 3 in its payload yields a connection whose peer is 9, and changing
the payload claim to 4 changes nothing about the upgrade. -/
theorem c1_noise_xx_identity_from_handshake_witness :
    ({ peer := 9, muxer := Multiplexer.yamux } : SecureConnection).peer =
      ({ actualIdentity := 9, payloadClaimedIdentity := 3, supportsYamux := true
       , supportsMplex := true } : RemotePeer).actualIdentity ∧
    applyTransportUpgrade (authenticate_and_multiplex 5)
        { actualIdentity := 9, payloadClaimedIdentity := 4, supportsYamux := true
        , supportsMplex := true } 0 =
      applyTransportUpgrade (authenticate_and_multiplex 5)
        { actualIdentity := 9, payloadClaimedIdentity := 3, supportsYamux := true
        , supportsMplex := true } 0 := by
  have h := c1_noise_xx_identity_from_handshake 5
      { actualIdentity := 9, payloadClaimedIdentity := 3, supportsYamux := true
      , supportsMplex := true } 0
  exact ⟨h.2.1 { peer := 9, muxer := Multiplexer.yamux } rfl, h.2.2 4⟩

/-- C3: the built transport enforces a fixed finite handshake bound of 20
seconds, and a handshake that exceeds the bound fails with
HandshakeError.Timeout instead of hanging or succeeding. -/
theorem c3_handshake_timeout_twenty_seconds :
    ∀ (localId : Nat) (remote : RemotePeer) (elapsed : Nat),
      (authenticate_and_multiplex localId).timeoutSecs = 20 ∧
      ((authenticate_and_multiplex localId).timeoutSecs < elapsed →
        applyTransportUpgrade (authenticate_and_multiplex localId) remote elapsed =
          Except.error HandshakeError.Timeout) := by
  intro localId remote elapsed
  refine ⟨rfl, fun h => ?_⟩
  unfold applyTransportUpgrade
  rw [if_pos h]

/-- Witness for C3 at a concrete input: a 21-second handshake against the
built transport fails with Timeout. -/
theorem c3_handshake_timeout_twenty_seconds_witness :
    (authenticate_and_multiplex 0).timeoutSecs = 20 ∧
    applyTransportUpgrade (authenticate_and_multiplex 0)
        { actualIdentity := 1, payloadClaimedIdentity := 1, supportsYamux := true
        , supportsMplex := true } 21 =
      Except.error HandshakeError.Timeout := by
  have h := c3_handshake_timeout_twenty_seconds 0
      { actualIdentity := 1, payloadClaimedIdentity := 1, supportsYamux := true
      , supportsMplex := true } 21
  exact ⟨h.1, h.2 (by decide)⟩

/-- C4: exactly one multiplexing scheme is selected per connection out of
the supported pair offered by the built transport (yamux or mplex), the
connection produced by a successful upgrade carries exactly the muxer
negotiated at handshake time, and every logical substream opened later on
that connection uses that same muxer, never a re-negotiated one. -/
theorem c4_single_multiplexer_fixed_for_lifetime :
    ∀ (localId : Nat) (remote : RemotePeer) (elapsed : Nat),
      (∀ m, negotiateMultiplexer (authenticate_and_multiplex localId).multiplex remote =
          some m → m = Multiplexer.yamux ∨ m = Multiplexer.mplex) ∧
      (∀ conn : SecureConnection,
        applyTransportUpgrade (authenticate_and_multiplex localId) remote elapsed =
          Except.ok conn →
        negotiateMultiplexer (authenticate_and_multiplex localId).multiplex remote =
          some conn.muxer) ∧
      (∀ (conn : SecureConnection) (i j : Nat),
        conn.openSubstream i = conn.muxer ∧
        conn.openSubstream i = conn.openSubstream j) := by
  intro localId remote elapsed
  refine ⟨?_, ?_, ?_⟩
  · intro m _
    cases m
    · exact Or.inl rfl
    · exact Or.inr rfl
  · intro conn h
    exact (applyTransportUpgrade_ok _ _ _ _ h).2
  · intro conn i j
    exact ⟨rfl, rfl⟩

/-- Witness for C4 at concrete inputs: against a remote supporting only
mplex the negotiation picks mplex, the successful upgrade carries it, and
substreams 0 and 1 both use it. -/
theorem c4_single_multiplexer_fixed_for_lifetime_witness :
    (Multiplexer.mplex = Multiplexer.yamux ∨ Multiplexer.mplex = Multiplexer.mplex) ∧
    negotiateMultiplexer (authenticate_and_multiplex 5).multiplex
        { actualIdentity := 9, payloadClaimedIdentity := 9, supportsYamux := false
        , supportsMplex := true } =
      some ({ peer := 9, muxer := Multiplexer.mplex } : SecureConnection).muxer ∧
    ({ peer := 9, muxer := Multiplexer.mplex } : SecureConnection).openSubstream 0 =
      ({ peer := 9, muxer := Multiplexer.mplex } : SecureConnection).openSubstream 1 := by
  have h := c4_single_multiplexer_fixed_for_lifetime 5
      { actualIdentity := 9, payloadClaimedIdentity := 9, supportsYamux := false
      , supportsMplex := true } 0
  exact ⟨h.1 Multiplexer.mplex rfl,
    h.2.1 { peer := 9, muxer := Multiplexer.mplex } rfl,
    (h.2.2 { peer := 9, muxer := Multiplexer.mplex } 0 1).2⟩

/-- C5: for a register request whose requested ttl exceeds max_ttl, whenever
the request is accepted the granted ttl is exactly max_ttl (clamped, not
rejected), and the requested ttl never influences whether the request is
accepted: the validation guards are independent of it. -/
theorem c5_over_limit_ttl_clamped_never_rejected :
    ∀ (cfg : RendezvousConfig) (now peer : Nat) (ns : String)
      (addrs : List String) (t : Nat) (st : RegistrationStore),
      cfg.minTtl ≤ cfg.maxTtl → cfg.maxTtl < t →
      (∀ v, (register cfg now peer ns addrs (some t) st).1 =
          RegisterOutcome.Registered v → v = cfg.maxTtl) ∧
      (∀ t' : Option Nat,
        (register cfg now peer ns addrs (some t) st).1.isRegistered =
          (register cfg now peer ns addrs t' st).1.isRegistered) := by
  intro cfg now peer ns addrs t st h1 h2
  constructor
  · intro v hv
    unfold register at hv
    by_cases g1 : validNamespace cfg ns = false
    · simp [g1] at hv
    · by_cases g2 : addrs.isEmpty
      · simp [g1, g2] at hv
      · by_cases g3 : cfg.registrationCap ≤
            (st.regs.filter (fun r => r.peer_id == peer && !(sameKey peer ns r))).length
        · simp [g1, g2, g3] at hv
        · simp [g1, g2, g3, clampTtl] at hv
          omega
  · intro t'
    unfold register
    by_cases g1 : validNamespace cfg ns = false
    · simp [g1]
    · by_cases g2 : addrs.isEmpty
      · simp [g1, g2]
      · by_cases g3 : cfg.registrationCap ≤
            (st.regs.filter (fun r => r.peer_id == peer && !(sameKey peer ns r))).length
        · simp [g1, g2, g3]
        · simp [g1, g2, g3, RegisterOutcome.isRegistered]

/-- Witness for C5 at a concrete configuration: requesting a ttl of 30
against a max_ttl of 10 yields Registered with ttl 10. -/
theorem c5_over_limit_ttl_clamped_never_rejected_witness :
    (register (RendezvousConfig.mk 1 10 5 255 100)
        0 1 "chat" ["/ip4/1.2.3.4/tcp/80"] (some 30) emptyStore).1 =
      RegisterOutcome.Registered 10 := by
  have h := c5_over_limit_ttl_clamped_never_rejected (RendezvousConfig.mk 1 10 5 255 100)
      0 1 "chat" ["/ip4/1.2.3.4/tcp/80"] 30 emptyStore (by decide) (by decide)
  have heq : (register (RendezvousConfig.mk 1 10 5 255 100)
        0 1 "chat" ["/ip4/1.2.3.4/tcp/80"] (some 30) emptyStore).1 =
      RegisterOutcome.Registered
        (clampTtl (RendezvousConfig.mk 1 10 5 255 100) (some 30)) := rfl
  exact heq.trans (congrArg RegisterOutcome.Registered (h.1 _ heq))

/-- Consing a fresh registration for a key onto a list from which every
entry for that key has been filtered out preserves key-distinctness. -/
lemma pairwise_cons_filtered_key (peer : Nat) (ns : String)
    (reg : StoreRegistration) (l : List StoreRegistration)
    (hp : reg.peer_id = peer) (hn : reg.nspace = ns) :
    l.Pairwise distinctKeys →
    (reg :: l.filter (fun r => !(sameKey peer ns r))).Pairwise distinctKeys := by
  intro h
  refine List.Pairwise.cons ?_ (h.filter _)
  intro b hb hcon
  have hmem := List.of_mem_filter hb
  rcases hcon with ⟨hcp, hcn⟩
  have hbp : b.peer_id = peer := by rw [← hcp, hp]
  have hbn : b.nspace = ns := by rw [← hcn, hn]
  simp [sameKey, hbp, hbn] at hmem

/-- Every store mutation preserves the at-most-one-per-key invariant. -/
lemma applyOp_preserves_atMostOne (cfg : RendezvousConfig) (op : StoreOp)
    (st : RegistrationStore) :
    atMostOnePerKey st → atMostOnePerKey (applyOp cfg st op) := by
  intro h
  cases op with
  | opRegister now peer ns addrs requestedTtl =>
    unfold applyOp register
    by_cases g1 : validNamespace cfg ns = false
    · simpa [g1, atMostOnePerKey] using h
    · by_cases g2 : addrs.isEmpty
      · simpa [g1, g2, atMostOnePerKey] using h
      · by_cases g3 : cfg.registrationCap ≤
            (st.regs.filter (fun r => r.peer_id == peer && !(sameKey peer ns r))).length
        · simpa [g1, g2, g3, atMostOnePerKey] using h
        · simp only [g1, g2, g3, atMostOnePerKey, if_false, if_neg, Bool.false_eq_true]
          exact pairwise_cons_filtered_key peer ns _ _ rfl rfl h
  | opUnregister peer ns =>
    exact h.filter _
  | opEvict now =>
    exact h.filter _

/-- C6: starting from the empty store, no sequence of register, unregister
and eviction operations (the serialized interleavings of the spec's
concurrency model) can make two registrations for the same
(peer_id, namespace) key visible: the at-most-one invariant holds after
every operation sequence. -/
theorem c6_at_most_one_registration_per_key :
    ∀ (cfg : RendezvousConfig) (ops : List StoreOp),
      atMostOnePerKey (runOps cfg ops) := by
  intro cfg ops
  unfold runOps
  have hgen : ∀ (l : List StoreOp) (st : RegistrationStore),
      atMostOnePerKey st → atMostOnePerKey (l.foldl (applyOp cfg) st) := by
    intro l
    induction l with
    | nil => intro st h; exact h
    | cons op rest ih =>
      intro st h
      exact ih _ (applyOp_preserves_atMostOne cfg op st h)
  exact hgen ops emptyStore List.Pairwise.nil
